import Mathlib

/-!
Verification of the scoring & discrepancy contract of the Pmo-prototipo
dashboard.  The definitions below shallowly embed the relevant client
functions from `src/frontend/src/components` (severity styling, the tier
color classifier, file selection and validation, error display, the
single-project scorer's state), together with spec-modelled definitions for
the score aggregator and batch assembler that live in the remote backend.

JavaScript numbers are modelled as `ℚ`, JS string falsiness (`||`) by an
explicit empty-string test, and `String.prototype.toLowerCase` /
`split('.')` by character-level functions that agree with them on ASCII
file names and severity labels.
-/

namespace Pmo

/-! ## Character-level string helpers (JS `toLowerCase`, `split('.').pop()`) -/

/-- ASCII lowercasing, character by character (agrees with
JavaScript's `toLowerCase` on the ASCII labels used by the app). -/
def toLowerStr (s : String) : String :=
  String.mk (s.toList.map Char.toLower)

/-- Split a character list at every `'.'`, keeping empty segments,
like JavaScript's `name.split('.')`. -/
def splitDotAux : List Char → List Char → List (List Char)
  | [], acc => [acc.reverse]
  | c :: cs, acc =>
      if c = '.' then acc.reverse :: splitDotAux cs [] else splitDotAux cs (c :: acc)

/-- `extensionOf name` embeds `name.split('.').pop().toLowerCase()` from
`CrossCheckView.jsx`: the text after the last dot (the whole name when
there is no dot), lowercased. -/
def extensionOf (name : String) : String :=
  String.mk ((((splitDotAux name.toList []).getLastD name.toList)).map Char.toLower)

/-! ## Severity classifier (`getSeverityStyles` in `ResultsDashboard.jsx`
and `HistoryDetail.jsx`) -/

/-- The three canonical severity classes of the contract. -/
inductive Severity where
  | high
  | medium
  | low
deriving DecidableEq

/-- The style record returned by `getSeverityStyles` (the `icon` field
holds the component name used in the source). -/
structure SeverityStyles where
  bg : String
  border : String
  badge : String
  icon : String
  iconColor : String
deriving DecidableEq

def highSeverityStyles : SeverityStyles :=
  ⟨"bg-red-600/20", "border-red-600/30", "bg-red-600 text-white", "AlertTriangle", "text-red-400"⟩

def mediumSeverityStyles : SeverityStyles :=
  ⟨"bg-yellow-600/20", "border-yellow-600/30", "bg-yellow-600 text-white", "AlertTriangle", "text-yellow-400"⟩

def lowSeverityStyles : SeverityStyles :=
  ⟨"bg-blue-600/20", "border-blue-600/30", "bg-blue-600 text-white", "Info", "text-blue-400"⟩

/-- `severity?.toLowerCase() || ''`: a missing label and the empty label
both normalize to `""`; otherwise the label is lowercased. -/
def normalizeSeverity (severity : Option String) : String :=
  match severity with
  | none => ""
  | some s => toLowerStr s

/-- `getSeverityStyles` from `ResultsDashboard.jsx` lines 22-49 (the copy
in `HistoryDetail.jsx` lines 51-78 is identical). -/
def getSeverityStyles (severity : Option String) : SeverityStyles :=
  let normalizedSeverity := normalizeSeverity severity
  if normalizedSeverity = "high" ∨ normalizedSeverity = "alta" then
    highSeverityStyles
  else if normalizedSeverity = "medium" ∨ normalizedSeverity = "media" then
    mediumSeverityStyles
  else
    lowSeverityStyles

/-- The branch structure of `getSeverityStyles`, viewed as the contract's
`classifySeverity`: which of the three classes a label selects. -/
def classifySeverity (severity : Option String) : Severity :=
  let n := normalizeSeverity severity
  if n = "high" ∨ n = "alta" then Severity.high
  else if n = "medium" ∨ n = "media" then Severity.medium
  else Severity.low

/-- The style record each severity class renders with. -/
def severityStyleFor : Severity → SeverityStyles
  | Severity.high => highSeverityStyles
  | Severity.medium => mediumSeverityStyles
  | Severity.low => lowSeverityStyles

/-! ## Tier classifier (`getScoreColor` in `CrossCheckView.jsx`
(PriorityBatchView) lines 289-294 and `HistoryDetail.jsx` lines 80-85) -/

/-- `getScoreColor` maps a numeric score to the tier display color.
Scores are JS numbers, modelled as `ℚ`; the source performs no input
validation. -/
def getScoreColor (score : ℚ) : String :=
  if score ≥ 80 then "text-red-400"
  else if score ≥ 60 then "text-orange-400"
  else if score ≥ 40 then "text-yellow-400"
  else "text-green-400"

/-! ## Score aggregator (spec §4.3; the computation lives in the remote
backend, absent from `src/` — only `ProjectScorer.jsx` renders its output) -/

/-- The five factor keys of the priority-score request. -/
inductive FactorKey where
  | roi
  | urgency
  | risk
  | strategic_alignment
  | resource_availability
deriving DecidableEq

/-- One scored dimension of a project (spec §3 `Factor`). -/
structure Factor where
  key : FactorKey
  value : ℚ
deriving DecidableEq

/-- Round-half-up to an integer, the fixed rounding policy of spec §4.3. -/
def roundHalfUp (q : ℚ) : ℤ :=
  (q + 1 / 2).floor

/-- Clamp an integer score into `[0, 100]` (spec §4.3 `clamp`). -/
def clampScore (x : ℤ) : ℤ :=
  max 0 (min x 100)

/-- One entry of the per-factor breakdown (spec §3 `ScoreBreakdown`). -/
structure BreakdownEntry where
  factorKey : FactorKey
  value : ℚ
  contribution : ℤ
deriving DecidableEq

/-- Tier name from the lower-edge-inclusive thresholds 80/60/40/0. -/
def tierName (s : ℤ) : String :=
  if s ≥ 80 then "Critical"
  else if s ≥ 60 then "High"
  else if s ≥ 40 then "Medium"
  else "Low"

/-- Display color paired with each tier band. -/
def tierColorHex (s : ℤ) : String :=
  if s ≥ 80 then "#ef4444"
  else if s ≥ 60 then "#f97316"
  else if s ≥ 40 then "#eab308"
  else "#22c55e"

/-- The recommendation string is templated per tier (spec §4.3). -/
def recommendationFor (s : ℤ) : String :=
  "Tier " ++ tierName s ++ ": follow the portfolio guidance for this band."

/-- `PriorityResult` (spec §3): final score, tier, color, breakdown and
recommendation. -/
structure PriorityResult where
  score : ℤ
  tier : String
  tier_color : String
  breakdown : List BreakdownEntry
  recommendation : String
deriving DecidableEq

/-- Assign a residual to the first breakdown entry. -/
def reconcile (residual : ℤ) : List BreakdownEntry → List BreakdownEntry
  | [] => []
  | e :: rest => { e with contribution := e.contribution + residual } :: rest

/-- Modelled from the spec: `aggregate` (spec §4.3) is implemented by the
remote scoring service, which is not part of this repository; only its
caller `ProjectScorer.jsx` and its rendered output are in `src/`.
Following the spec's words: `contribution_i = round(value_i * weight_i)`,
`score = clamp(sum(contribution_i), 0, 100)`, and residual rounding/clamp
drift is reconciled by assigning it to a designated contributor (here the
first entry) so that the contributions sum exactly to the score. -/
def aggregate (factors : List Factor) (weights : FactorKey → ℚ) : PriorityResult :=
  let entries := factors.map fun f =>
    BreakdownEntry.mk f.key f.value (roundHalfUp (f.value * weights f.key))
  let raw := (entries.map fun e => e.contribution).sum
  let score := clampScore raw
  { score := score
    tier := tierName score
    tier_color := tierColorHex score
    breakdown := reconcile (score - raw) entries
    recommendation := recommendationFor score }

/-! ## Batch result assembler (spec §4.5; backend-side, absent from
`src/` — `CrossCheckView.jsx` (PriorityBatchView) renders its output) -/

/-- One row of a `BatchResult.results` sequence (spec §3). -/
structure RankedProject where
  id : String
  name : String
  area : String
  sponsor : String
  score : ℤ
  tier : String
  tier_color : String
  breakdown : List BreakdownEntry
deriving DecidableEq

/-- The descending ranking relation: `a` may come before `b` when
`b.score ≤ a.score`. -/
def scoreOrder (a b : RankedProject) : Prop :=
  b.score ≤ a.score

instance : DecidableRel scoreOrder := fun a b =>
  inferInstanceAs (Decidable (b.score ≤ a.score))

instance : IsTotal RankedProject scoreOrder :=
  ⟨fun a b => le_total b.score a.score⟩

instance : IsTrans RankedProject scoreOrder :=
  ⟨fun _ _ _ hab hbc => le_trans hbc hab⟩

/-- Modelled from the spec: the stable descending sort of spec §4.5
(insertion sort is stable: an element is inserted after every
earlier-listed element of equal score). -/
def sortByScoreDesc (l : List RankedProject) : List RankedProject :=
  l.insertionSort scoreOrder

/-- A raw project row of the uploaded portfolio spreadsheet. -/
structure ProjectInput where
  id : String
  name : String
  area : String
  sponsor : String
  factors : List Factor
deriving DecidableEq

/-- `BatchResult` (spec §3). -/
structure BatchResult where
  total_projects : ℕ
  results : List RankedProject
deriving DecidableEq

/-- Score every project with `aggregate`, in input order (spec §4.5). -/
def scoredProjects (projects : List ProjectInput) (weights : FactorKey → ℚ) :
    List RankedProject :=
  projects.map fun p =>
    let pr := aggregate p.factors weights
    RankedProject.mk p.id p.name p.area p.sponsor pr.score pr.tier pr.tier_color pr.breakdown

/-- Modelled from the spec: `assemble` (spec §4.5) is implemented by the
remote scoring service, which is not part of this repository; only its
caller/renderer `PriorityBatchView` is in `src/`.  Following the spec's
words: score each project via `aggregate`, then sort descending by score
with a stable sort. -/
def assemble (projects : List ProjectInput) (weights : FactorKey → ℚ) : BatchResult :=
  { total_projects := projects.length
    results := sortByScoreDesc (scoredProjects projects weights) }

/-! ## Error display (`handleCalculate` in `ProjectScorer.jsx` lines 32-44,
`handleAnalyze` in `CrossCheckView.jsx` lines 74-103, `handleProcess` in
`CrossCheckView.jsx` lines 268-287) -/

/-- JavaScript's `a || b` on strings: the empty string is falsy. -/
def jsOrString (a b : String) : String :=
  if a = "" then b else a

/-- `err.response.data` with its optional `detail` field. -/
structure ErrorPayload where
  detail : Option String
deriving DecidableEq

/-- `err.response`, possibly absent (no HTTP response at all). -/
structure ErrorResponse where
  data : Option ErrorPayload
deriving DecidableEq

/-- The axios error object the catch blocks receive. -/
structure RequestError where
  response : Option ErrorResponse
  message : String
deriving DecidableEq

/-- `err.response?.data?.detail` flattened to a string; an absent link of
the optional chain and an absent `detail` both yield `""`, which is
exactly how `||` treats them. -/
def detailOf (err : RequestError) : String :=
  (((err.response.bind fun r => r.data).bind fun d => d.detail).getD "")

def analyzeFallbackMsg : String := "Error en análisis. Por favor intenta de nuevo."

def scorerFallbackMsg : String := "Failed to calculate priority score."

def batchFallbackMsg : String := "Falló el procesamiento. Por favor intenta de nuevo."

/-- `err.response?.data?.detail || err.message || 'Error en análisis. …'`
(`CrossCheckView.jsx` line 98). -/
def displayedAnalyzeError (err : RequestError) : String :=
  jsOrString (detailOf err) (jsOrString err.message analyzeFallbackMsg)

/-- `err.response?.data?.detail || 'Failed to calculate priority score.'`
(`ProjectScorer.jsx` line 40). -/
def displayedScorerError (err : RequestError) : String :=
  jsOrString (detailOf err) scorerFallbackMsg

/-- `err.response?.data?.detail || "Falló el procesamiento. …"`
(`CrossCheckView.jsx` line 283). -/
def displayedBatchError (err : RequestError) : String :=
  jsOrString (detailOf err) batchFallbackMsg

/-! ## Cross-check view state (`CrossCheckView.jsx` lines 11-103) -/

/-- A browser `File`, identified by its name. -/
structure JsFile where
  name : String
deriving DecidableEq

/-- The `useState` cells of `CrossCheckView`, plus the value the
`onAnalysisComplete` callback has delivered to the parent (the displayed
analysis results). -/
structure CCState where
  excelFile : Option JsFile
  pptxFile : Option JsFile
  isDragging : Bool
  isLoading : Bool
  error : Option String
  success : Bool
  analysisDelivered : Option String
deriving DecidableEq

def ccInit : CCState :=
  ⟨none, none, false, false, none, false, none⟩

def uploadBothMsg : String := "Por favor sube tanto el archivo Excel como el PowerPoint."

/-- Error message for an unsupported extension in the cross-check drop
zone (`CrossCheckView.jsx` line 47). -/
def unsupportedMsgCC (ext : String) : String :=
  "Tipo de archivo no soportado: ." ++ ext ++ ". Solo se aceptan .xlsx y .pptx."

/-- The per-file body of `processFiles` (`CrossCheckView.jsx` lines 38-50):
xlsx/xls fills the Excel slot, pptx the PowerPoint slot, anything else
only sets the error message. -/
def processFile (s : CCState) (f : JsFile) : CCState :=
  let extension := extensionOf f.name
  if extension = "xlsx" ∨ extension = "xls" then
    { s with excelFile := some f }
  else if extension = "pptx" then
    { s with pptxFile := some f }
  else
    { s with error := some (unsupportedMsgCC extension) }

/-- `processFiles` iterates the dropped files in order. -/
def processFiles (s : CCState) (files : List JsFile) : CCState :=
  files.foldl processFile s

/-- Which slot a click-select `<input>` targets. -/
inductive FileSlot where
  | excel
  | pptx
deriving DecidableEq

/-- `handleFileSelect` (`CrossCheckView.jsx` lines 52-62): assigns the
chosen file to the slot of the clicked input, with no extension check. -/
def handleFileSelect (s : CCState) (f : Option JsFile) (slot : FileSlot) : CCState :=
  match f with
  | none => s
  | some file =>
    match slot with
    | FileSlot.excel => { s with error := none, excelFile := some file }
    | FileSlot.pptx => { s with error := none, pptxFile := some file }

/-- The synchronous prefix of `handleAnalyze` (`CrossCheckView.jsx` lines
74-103): the guard branch only sets the error and returns without a
request; otherwise loading starts and the request is issued.  The boolean
of the pair records whether the POST was sent. -/
def handleAnalyze (s : CCState) : CCState × Bool :=
  match s.excelFile, s.pptxFile with
  | some _, some _ =>
      ({ s with isLoading := true, error := none, success := false }, true)
  | _, _ =>
      ({ s with error := some uploadBothMsg }, false)

/-! ## Priority batch view state (`PriorityBatchView` in
`CrossCheckView.jsx` lines 228-294) -/

/-- The `useState` cells of `PriorityBatchView` that file validation can
touch. -/
structure PBState where
  file : Option JsFile
  isLoading : Bool
  error : Option String
deriving DecidableEq

def unsupportedMsgPB : String :=
  "Tipo de archivo no soportado. Por favor sube un archivo Excel válido (.xlsx)"

/-- `validateAndSetFile` (`CrossCheckView.jsx` lines 257-266): accepts
xlsx/xls and clears the error, rejects anything else with an error
message, ignores an absent file. -/
def validateAndSetFile (s : PBState) (f : Option JsFile) : PBState :=
  match f with
  | none => s
  | some selectedFile =>
    let extension := extensionOf selectedFile.name
    if extension = "xlsx" ∨ extension = "xls" then
      { s with file := some selectedFile, error := none }
    else
      { s with error := some unsupportedMsgPB }

/-! ## Single-project scorer state (`ProjectScorer.jsx` lines 11-44) -/

/-- The five slider values of the scorer form. -/
structure FormData where
  roi : ℚ
  urgency : ℚ
  risk : ℚ
  strategic_alignment : ℚ
  resource_availability : ℚ
deriving DecidableEq

/-- Initial slider values (`ProjectScorer.jsx` lines 12-18). -/
def initialFormData : FormData :=
  ⟨50, 50, 50, 50, 50⟩

/-- Update one slider field (the computed-key spread in
`handleSliderChange`). -/
def setFactor (f : FormData) (k : FactorKey) (v : ℚ) : FormData :=
  match k with
  | FactorKey.roi => { f with roi := v }
  | FactorKey.urgency => { f with urgency := v }
  | FactorKey.risk => { f with risk := v }
  | FactorKey.strategic_alignment => { f with strategic_alignment := v }
  | FactorKey.resource_availability => { f with resource_availability := v }

/-- The scorer component's state.  `result` is the displayed
`PriorityResult` (abstracted to `α`); `pendingRequest` holds the form
data captured by an in-flight `handleCalculate` closure, if any. -/
structure ScorerState (α : Type) where
  formData : FormData
  result : Option α
  pendingRequest : Option FormData
  isLoading : Bool
  error : Option String
deriving DecidableEq

def initialScorerState (α : Type) : ScorerState α :=
  ⟨initialFormData, none, none, false, none⟩

/-- The observable events of the scorer component: a slider change, the
start of `handleCalculate` (which snapshots the form in its closure), and
the arrival of a success or failure response for the in-flight request. -/
inductive ScorerEvent where
  | slide (k : FactorKey) (v : ℚ)
  | calcStart
  | calcOk
  | calcFail
deriving DecidableEq

/-- One step of the scorer component.  `backend` abstracts the remote
`/prioritize` endpoint as a pure function of the submitted form.
`slide` embeds `handleSliderChange` (`ProjectScorer.jsx` lines 24-30):
update the field and set the result to null.  `calcStart` embeds the
synchronous prefix of `handleCalculate`; `calcOk`/`calcFail` embed its
`then`/`catch` continuations, which use the snapshotted form data. -/
def scorerStep {α : Type} (backend : FormData → α) (s : ScorerState α) :
    ScorerEvent → ScorerState α
  | ScorerEvent.slide k v =>
      { s with formData := setFactor s.formData k v, result := none }
  | ScorerEvent.calcStart =>
      { s with isLoading := true, error := none, pendingRequest := some s.formData }
  | ScorerEvent.calcOk =>
      match s.pendingRequest with
      | some fd =>
          { s with result := some (backend fd), isLoading := false, pendingRequest := none }
      | none => s
  | ScorerEvent.calcFail =>
      match s.pendingRequest with
      | some _ =>
          { s with error := some scorerFallbackMsg, isLoading := false,
                   pendingRequest := none }
      | none => s

/-- Run the scorer from its initial state over a list of events. -/
def runScorer {α : Type} (backend : FormData → α) (evs : List ScorerEvent) :
    ScorerState α :=
  evs.foldl (scorerStep backend) (initialScorerState α)

/-- `true` when no slider change happens while a request is in flight:
the flag tracks whether a request is pending. -/
def noSlideWhileInFlight : Bool → List ScorerEvent → Bool
  | _, [] => true
  | inFlight, ScorerEvent.slide _ _ :: rest =>
      !inFlight && noSlideWhileInFlight inFlight rest
  | _, ScorerEvent.calcStart :: rest => noSlideWhileInFlight true rest
  | _, ScorerEvent.calcOk :: rest => noSlideWhileInFlight false rest
  | _, ScorerEvent.calcFail :: rest => noSlideWhileInFlight false rest

/-! ## Theorems -/

/-- The high and medium recognition conditions cannot hold at once. -/
lemma severity_conds_exclusive {n : String} (h1 : n = "high" ∨ n = "alta") :
    ¬(n = "medium" ∨ n = "media") := by
  rcases h1 with h | h <;> subst h <;> decide

/-- Claim C1: for every severity label (any string, including a missing,
empty, unrecognized or mixed-case one) the classifier assigns exactly one
of the three classes: after lowercasing, "high"/"alta" map to high,
"medium"/"media" map to medium, and everything else maps to low; the
function is total, so it never throws. -/
theorem severity_classifier_total_and_mapping :
    ∀ sev : Option String,
      (classifySeverity sev = Severity.high ∨ classifySeverity sev = Severity.medium ∨
        classifySeverity sev = Severity.low) ∧
      getSeverityStyles sev = severityStyleFor (classifySeverity sev) ∧
      (classifySeverity sev = Severity.high ↔
        normalizeSeverity sev = "high" ∨ normalizeSeverity sev = "alta") ∧
      (classifySeverity sev = Severity.medium ↔
        normalizeSeverity sev = "medium" ∨ normalizeSeverity sev = "media") ∧
      (classifySeverity sev = Severity.low ↔
        ¬(normalizeSeverity sev = "high" ∨ normalizeSeverity sev = "alta") ∧
        ¬(normalizeSeverity sev = "medium" ∨ normalizeSeverity sev = "media")) := by
  intro sev
  by_cases h1 : normalizeSeverity sev = "high" ∨ normalizeSeverity sev = "alta"
  · have h2 := severity_conds_exclusive h1
    simp [classifySeverity, getSeverityStyles, severityStyleFor, h1, h2]
  · by_cases h2 : normalizeSeverity sev = "medium" ∨ normalizeSeverity sev = "media"
    · simp [classifySeverity, getSeverityStyles, severityStyleFor, h1, h2]
    · simp [classifySeverity, getSeverityStyles, severityStyleFor, h1, h2]

/-- Claim C2 counterexample: the code classifies a score of 79 with the
orange "High" tier color, not the yellow "Medium" color the claim
asserts for it. -/
theorem getScoreColor_79_is_orange :
    getScoreColor 79 = "text-orange-400" ∧ "text-orange-400" ≠ "text-yellow-400" := by
  constructor
  · norm_num [getScoreColor]
  · decide

/-- Claim C2 (amended): the tier classifier is lower-edge inclusive with
thresholds 80/60/40/0: a score of 80 or more is red ("Critical"), 60 to
79 orange ("High"), 40 to 59 yellow ("Medium"), below 40 green ("Low");
in particular 79 classifies as "High"/orange and 80 as "Critical"/red. -/
theorem tier_lower_edge_inclusive :
    ∀ s : ℚ,
      (80 ≤ s → getScoreColor s = "text-red-400") ∧
      (60 ≤ s → s < 80 → getScoreColor s = "text-orange-400") ∧
      (40 ≤ s → s < 60 → getScoreColor s = "text-yellow-400") ∧
      (s < 40 → getScoreColor s = "text-green-400") := by
  intro s
  unfold getScoreColor
  refine ⟨fun h => ?_, fun h1 h2 => ?_, fun h1 h2 => ?_, fun h => ?_⟩
  · rw [if_pos h]
  · rw [if_neg (not_le.mpr h2), if_pos h1]
  · rw [if_neg (not_le.mpr (h2.trans_le (by norm_num))), if_neg (not_le.mpr h2),
      if_pos h1]
  · rw [if_neg (not_le.mpr (h.trans_le (by norm_num))),
      if_neg (not_le.mpr (h.trans_le (by norm_num))), if_neg (not_le.mpr h)]

/-- Claim C2 witness: the amended theorem at the boundary scores 80
and 79. -/
theorem tier_lower_edge_inclusive_witness :
    getScoreColor 80 = "text-red-400" ∧ getScoreColor 79 = "text-orange-400" :=
  ⟨(tier_lower_edge_inclusive 80).1 (by decide),
   (tier_lower_edge_inclusive 79).2.1 (by decide) (by decide)⟩

/-- Claim C3: for every integer score in `[0, 100]` the classifier
returns exactly one tier color, and the four bands `[80,100]`, `[60,79]`,
`[40,59]`, `[0,39]` partition `[0,100]`: each score satisfies exactly one
band condition (the conditions below are mutually exclusive and cover the
interval), and the returned color is exactly that band's color. -/
theorem tier_bands_partition :
    ∀ s : ℤ, 0 ≤ s → s ≤ 100 →
      (getScoreColor (s : ℚ) = "text-red-400" ↔ 80 ≤ s) ∧
      (getScoreColor (s : ℚ) = "text-orange-400" ↔ 60 ≤ s ∧ s < 80) ∧
      (getScoreColor (s : ℚ) = "text-yellow-400" ↔ 40 ≤ s ∧ s < 60) ∧
      (getScoreColor (s : ℚ) = "text-green-400" ↔ 0 ≤ s ∧ s < 40) := by
  intro s h0 h100
  unfold getScoreColor
  by_cases h80 : (80 : ℤ) ≤ s
  · rw [if_pos (by exact_mod_cast h80 : (80 : ℚ) ≤ (s : ℚ))]
    refine ⟨?_, ?_, ?_, ?_⟩ <;> simp <;> omega
  · rw [if_neg (by
      have : (s : ℚ) < 80 := by exact_mod_cast (by omega : s < (80 : ℤ))
      exact not_le.mpr this)]
    by_cases h60 : (60 : ℤ) ≤ s
    · rw [if_pos (by exact_mod_cast h60 : (60 : ℚ) ≤ (s : ℚ))]
      refine ⟨?_, ?_, ?_, ?_⟩ <;> simp <;> omega
    · rw [if_neg (by
        have : (s : ℚ) < 60 := by exact_mod_cast (by omega : s < (60 : ℤ))
        exact not_le.mpr this)]
      by_cases h40 : (40 : ℤ) ≤ s
      · rw [if_pos (by exact_mod_cast h40 : (40 : ℚ) ≤ (s : ℚ))]
        refine ⟨?_, ?_, ?_, ?_⟩ <;> simp <;> omega
      · rw [if_neg (by
          have : (s : ℚ) < 40 := by exact_mod_cast (by omega : s < (40 : ℤ))
          exact not_le.mpr this)]
        refine ⟨?_, ?_, ?_, ?_⟩ <;> simp <;> omega

/-- Claim C3 witness: the partition theorem applied at the concrete
in-range score 50. -/
theorem tier_bands_partition_witness :
    getScoreColor ((50 : ℤ) : ℚ) = "text-yellow-400" :=
  ((tier_bands_partition 50 (by decide) (by decide)).2.2.1).mpr (by decide)

/-- Claim C6 counterexample: the classifier does not fail on scores that
are not integers in `[0, 100]` — it happily returns a tier for 150, -5
and the non-integer 79.5. -/
theorem getScoreColor_no_domain_check :
    getScoreColor 150 = "text-red-400" ∧ getScoreColor (-5) = "text-green-400" ∧
    getScoreColor (159 / 2) = "text-orange-400" := by
  refine ⟨by decide, by decide, ?_⟩
  norm_num [getScoreColor]

/-- Claim C6 (amended): the tier classifier performs no input validation
and never fails: every numeric score — integer or not, in range or not —
is classified into one of the four tier colors. -/
theorem getScoreColor_total :
    ∀ s : ℚ,
      getScoreColor s = "text-red-400" ∨ getScoreColor s = "text-orange-400" ∨
      getScoreColor s = "text-yellow-400" ∨ getScoreColor s = "text-green-400" := by
  intro s
  unfold getScoreColor
  split_ifs <;> simp

/-- Inserting a project into a list keeps the subsequence of any fixed
score intact, with the new project in front of it when it has that score:
`orderedInsert` only passes over strictly greater scores. -/
lemma filter_score_orderedInsert (v : ℤ) (a : RankedProject) :
    ∀ l : List RankedProject,
      (l.orderedInsert scoreOrder a).filter (fun p => p.score == v)
        = if a.score = v then a :: l.filter (fun p => p.score == v)
          else l.filter (fun p => p.score == v) := by
  intro l
  induction l with
  | nil =>
      by_cases hv : a.score = v <;>
        simp [List.orderedInsert, List.filter_cons, beq_iff_eq, hv]
  | cons b l ih =>
      by_cases hr : scoreOrder a b
      · rw [List.orderedInsert, if_pos hr]
        by_cases hv : a.score = v <;>
          by_cases hbv : b.score = v <;>
            simp [List.filter_cons, beq_iff_eq, hv, hbv]
      · rw [List.orderedInsert, if_neg hr]
        by_cases hv : a.score = v
        · have hbv : ¬(b.score = v) := by
            intro hbv
            exact hr (by simp [scoreOrder, hv, hbv])
          simp [List.filter_cons, beq_iff_eq, hbv, ih, hv]
        · by_cases hbv : b.score = v <;>
            simp [List.filter_cons, beq_iff_eq, hbv, ih, hv]

/-- The stable descending sort preserves, for every score value, the
input subsequence of projects carrying that score. -/
lemma filter_score_sortByScoreDesc (v : ℤ) :
    ∀ l : List RankedProject,
      (sortByScoreDesc l).filter (fun p => p.score == v)
        = l.filter (fun p => p.score == v) := by
  intro l
  induction l with
  | nil => rfl
  | cons a l ih =>
      rw [sortByScoreDesc] at ih ⊢
      show ((l.insertionSort scoreOrder).orderedInsert scoreOrder a).filter _ = _
      rw [filter_score_orderedInsert]
      by_cases hv : a.score = v <;>
        simp [List.filter_cons, beq_iff_eq, hv, ih]

/-- Claim C4: in every `BatchResult`, the results are sorted
non-increasingly by score; ties keep input order (for every score value,
the subsequence of results carrying that score equals the corresponding
subsequence of the scored input, which `scoredProjects` produces in input
order); and `total_projects` equals the length of the results.  Includes
the spec's example: input scores [55, 82, 82] rank as the first-seen 82,
then the second-seen 82, then 55. -/
theorem batch_results_sorted_stable_total :
    (∀ (projects : List ProjectInput) (weights : FactorKey → ℚ),
      List.Sorted scoreOrder (assemble projects weights).results ∧
      (∀ v : ℤ,
        (assemble projects weights).results.filter (fun p => p.score == v)
          = (scoredProjects projects weights).filter (fun p => p.score == v)) ∧
      (assemble projects weights).total_projects
        = (assemble projects weights).results.length) ∧
    sortByScoreDesc
        [⟨"P1", "First", "a", "s", 55, "High", "#f97316", []⟩,
         ⟨"P2", "Second", "a", "s", 82, "Critical", "#ef4444", []⟩,
         ⟨"P3", "Third", "a", "s", 82, "Critical", "#ef4444", []⟩]
      = [⟨"P2", "Second", "a", "s", 82, "Critical", "#ef4444", []⟩,
         ⟨"P3", "Third", "a", "s", 82, "Critical", "#ef4444", []⟩,
         ⟨"P1", "First", "a", "s", 55, "High", "#f97316", []⟩] := by
  refine ⟨fun projects weights => ⟨?_, fun v => ?_, ?_⟩, by decide⟩
  · exact List.sorted_insertionSort scoreOrder (scoredProjects projects weights)
  · exact filter_score_sortByScoreDesc v (scoredProjects projects weights)
  · show projects.length = (sortByScoreDesc (scoredProjects projects weights)).length
    rw [sortByScoreDesc, List.length_insertionSort, scoredProjects, List.length_map]

/-- Summing after assigning a residual to the first entry. -/
lemma sum_reconcile (residual : ℤ) :
    ∀ entries : List BreakdownEntry, entries ≠ [] →
      ((reconcile residual entries).map fun e => e.contribution).sum
        = ((entries.map fun e => e.contribution).sum) + residual := by
  intro entries h
  match entries with
  | [] => exact absurd rfl h
  | e :: rest =>
      simp [reconcile]
      ring

/-- Claim C5: for every factor set, the contributions listed in the
breakdown of the aggregated `PriorityResult` sum exactly to its final
score — the residual introduced by clamping (and, in general, rounding)
is reconciled into the breakdown. -/
theorem aggregate_contributions_sum_to_score :
    ∀ (factors : List Factor) (weights : FactorKey → ℚ),
      (((aggregate factors weights).breakdown.map fun e => e.contribution).sum)
        = (aggregate factors weights).score := by
  intro factors weights
  cases factors with
  | nil => rfl
  | cons f rest =>
      unfold aggregate
      rw [sum_reconcile _ _ (by simp [List.map])]
      ring

/-- Claim C7 counterexample: the cross-check analyze handler does not
fall back to its fixed message when the response carries no `detail` — it
displays the error object's own `message` instead. -/
theorem analyze_error_shows_raw_message :
    detailOf ⟨none, "Network Error"⟩ = "" ∧
    displayedAnalyzeError ⟨none, "Network Error"⟩ = "Network Error" ∧
    "Network Error" ≠ analyzeFallbackMsg := by
  refine ⟨rfl, rfl, by decide⟩

/-- Claim C7 (amended): each failure handler displays the `detail` string
of the error response whenever it is present and non-empty; when it is
absent (or empty), the single-project scorer and the batch handler
display their fixed fallback messages, while the cross-check analyze
handler first falls back to the error's own `message` and only then to
its fixed message; in every case the displayed error is non-empty, so an
error is never silently absent after a failure. -/
theorem displayed_error_detail_or_fallback :
    ∀ err : RequestError,
      (detailOf err ≠ "" →
        displayedAnalyzeError err = detailOf err ∧
        displayedScorerError err = detailOf err ∧
        displayedBatchError err = detailOf err) ∧
      (detailOf err = "" →
        displayedScorerError err = scorerFallbackMsg ∧
        displayedBatchError err = batchFallbackMsg ∧
        displayedAnalyzeError err =
          (if err.message = "" then analyzeFallbackMsg else err.message)) ∧
      displayedAnalyzeError err ≠ "" ∧
      displayedScorerError err ≠ "" ∧
      displayedBatchError err ≠ "" := by
  intro err
  by_cases hd : detailOf err = ""
  · by_cases hm : err.message = "" <;>
      simp [displayedAnalyzeError, displayedScorerError, displayedBatchError,
        jsOrString, hd, hm, analyzeFallbackMsg, scorerFallbackMsg, batchFallbackMsg]
  · simp [displayedAnalyzeError, displayedScorerError, displayedBatchError,
      jsOrString, hd]

/-- Claim C7 witness: the amended theorem at a concrete error carrying a
`detail` string. -/
theorem displayed_error_detail_or_fallback_witness :
    displayedAnalyzeError ⟨some ⟨some ⟨some "Archivo corrupto"⟩⟩, "Request failed"⟩
      = detailOf ⟨some ⟨some ⟨some "Archivo corrupto"⟩⟩, "Request failed"⟩ :=
  ((displayed_error_detail_or_fallback
      ⟨some ⟨some ⟨some "Archivo corrupto"⟩⟩, "Request failed"⟩).1 (by decide)).1

/-- Claim C8: `handleAnalyze` issues the request precisely when both the
Excel and the PowerPoint file are selected; when either is missing it
only sets the error message — the selected files, the success flag and
the delivered analysis results are untouched and no request is sent. -/
theorem analyze_sends_iff_both_files :
    ∀ s : CCState,
      ((handleAnalyze s).2 = true ↔ s.excelFile.isSome ∧ s.pptxFile.isSome) ∧
      (¬(s.excelFile.isSome ∧ s.pptxFile.isSome) →
        (handleAnalyze s).1 = { s with error := some uploadBothMsg }) := by
  intro s
  cases he : s.excelFile <;> cases hp : s.pptxFile <;>
    simp [handleAnalyze, he, hp]

/-- Claim C8 witness: the theorem at a state missing the PowerPoint file. -/
theorem analyze_sends_iff_both_files_witness :
    (handleAnalyze { ccInit with excelFile := some ⟨"libro.xlsx"⟩ }).1
      = { ccInit with excelFile := some ⟨"libro.xlsx"⟩, error := some uploadBothMsg } :=
  (analyze_sends_iff_both_files { ccInit with excelFile := some ⟨"libro.xlsx"⟩ }).2
    (by decide)

/-- Claim C9 counterexample: in the cross-check view, a file chosen
through the click-to-browse input is accepted as the Excel input without
any extension check — `report.txt` lands in the Excel slot even though
its extension is neither `xlsx` nor `xls`. -/
theorem select_accepts_any_extension :
    (handleFileSelect ccInit (some ⟨"report.txt"⟩) FileSlot.excel).excelFile
        = some ⟨"report.txt"⟩ ∧
    extensionOf "report.txt" ≠ "xlsx" ∧ extensionOf "report.txt" ≠ "xls" := by
  decide

/-- Claim C9 (amended): for every file dropped on the cross-check drop
zone, it is accepted as the Excel input iff its final extension (the text
after the last dot of the name, or the whole name when there is no dot)
lowercases to `xlsx` or `xls`, and as the PowerPoint input iff it
lowercases to `pptx`; any other extension only sets an error message and
leaves both selected files unchanged.  The batch view applies the same
xlsx/xls rule to both dropped and selected files.  The cross-check
click-select path, however, assigns the file to the clicked slot with no
extension validation. -/
theorem dropped_file_validation :
    ∀ (s : CCState) (f : JsFile),
      ((processFile s f).excelFile
          = if extensionOf f.name = "xlsx" ∨ extensionOf f.name = "xls"
            then some f else s.excelFile) ∧
      ((processFile s f).pptxFile
          = if ¬(extensionOf f.name = "xlsx" ∨ extensionOf f.name = "xls") ∧
              extensionOf f.name = "pptx"
            then some f else s.pptxFile) ∧
      (¬(extensionOf f.name = "xlsx" ∨ extensionOf f.name = "xls") →
        ¬extensionOf f.name = "pptx" →
        processFile s f = { s with error := some (unsupportedMsgCC (extensionOf f.name)) }) ∧
      (handleFileSelect s (some f) FileSlot.excel).excelFile = some f ∧
      (handleFileSelect s (some f) FileSlot.pptx).pptxFile = some f ∧
      (∀ pb : PBState,
        ((validateAndSetFile pb (some f)).file
            = if extensionOf f.name = "xlsx" ∨ extensionOf f.name = "xls"
              then some f else pb.file) ∧
        (¬(extensionOf f.name = "xlsx" ∨ extensionOf f.name = "xls") →
          validateAndSetFile pb (some f) = { pb with error := some unsupportedMsgPB })) := by
  intro s f
  by_cases hx : extensionOf f.name = "xlsx" ∨ extensionOf f.name = "xls"
  · simp [processFile, handleFileSelect, validateAndSetFile, hx]
  · by_cases hp : extensionOf f.name = "pptx" <;>
      simp [processFile, handleFileSelect, validateAndSetFile, hx, hp]

/-- Claim C9 witness: the amended theorem at a concrete unsupported file
dropped on the cross-check view. -/
theorem dropped_file_validation_witness :
    processFile ccInit ⟨"resumen.pdf"⟩
      = { ccInit with error := some (unsupportedMsgCC (extensionOf "resumen.pdf")) } :=
  (dropped_file_validation ccInit ⟨"resumen.pdf"⟩).2.2.1 (by decide) (by decide)

/-- The invariant carried through a scorer run: an in-flight request
snapshot matches the current form, and a displayed result was produced
from the current form. -/
def ScorerSync {α : Type} (backend : FormData → α) (s : ScorerState α) : Prop :=
  (∀ fd, s.pendingRequest = some fd → fd = s.formData) ∧
  (∀ r, s.result = some r → r = backend s.formData)

/-- The invariant is preserved by every event of a run in which no slider
moves while a request is in flight. -/
lemma scorerSync_foldl {α : Type} (backend : FormData → α) :
    ∀ (evs : List ScorerEvent) (b : Bool) (s : ScorerState α),
      noSlideWhileInFlight b evs = true →
      s.pendingRequest.isSome = b →
      ScorerSync backend s →
      ScorerSync backend (evs.foldl (scorerStep backend) s) := by
  intro evs
  induction evs with
  | nil => intro b s _ _ hs; exact hs
  | cons e rest ih =>
      intro b s hsafe hb hs
      cases e with
      | slide k v =>
          have hb' : b = false := by
            cases b
            · rfl
            · simp [noSlideWhileInFlight] at hsafe
          subst hb'
          have hpend : s.pendingRequest = none := by
            cases hpr : s.pendingRequest
            · rfl
            · rw [hpr] at hb; simp at hb
          refine ih false _ ?_ ?_ ?_
          · simpa [noSlideWhileInFlight] using hsafe
          · simp [scorerStep, hpend]
          · constructor
            · intro fd hfd
              rw [scorerStep] at hfd
              simp at hfd
              rw [hpend] at hfd
              exact absurd hfd (by simp)
            · intro r hr
              rw [scorerStep] at hr
              simp at hr
      | calcStart =>
          refine ih true _ ?_ ?_ ?_
          · simpa [noSlideWhileInFlight] using hsafe
          · simp [scorerStep]
          · constructor
            · intro fd hfd
              simp [scorerStep] at hfd
              simp [scorerStep, hfd]
            · intro r hr
              simp [scorerStep] at hr
              have := hs.2 r hr
              simp [scorerStep, this]
      | calcOk =>
          refine ih false _ ?_ ?_ ?_
          · simpa [noSlideWhileInFlight] using hsafe
          · cases hpr : s.pendingRequest <;> simp [scorerStep, hpr]
          · cases hpr : s.pendingRequest with
            | none =>
                simpa [scorerStep, hpr] using hs
            | some fd =>
                have hfd := hs.1 fd hpr
                constructor
                · intro fd' hfd'
                  simp [scorerStep, hpr] at hfd'
                · intro r hr
                  simp [scorerStep, hpr] at hr ⊢
                  rw [← hr, hfd]
      | calcFail =>
          refine ih false _ ?_ ?_ ?_
          · simpa [noSlideWhileInFlight] using hsafe
          · cases hpr : s.pendingRequest <;> simp [scorerStep, hpr]
          · cases hpr : s.pendingRequest with
            | none =>
                simpa [scorerStep, hpr] using hs
            | some fd =>
                constructor
                · intro fd' hfd'
                  simp [scorerStep, hpr] at hfd'
                · intro r hr
                  simp [scorerStep, hpr] at hr ⊢
                  exact hs.2 r hr

/-- Claim C10 counterexample: a slider moved while a request is in
flight leaves a stale result on screen.  With the backend abstracted as
the identity (so the result records exactly the submitted form), the run
"calculate, slide roi to 60, response arrives" ends displaying the
result produced from the initial form while the current form differs. -/
theorem stale_result_after_inflight_slide :
    (runScorer id
        [ScorerEvent.calcStart, ScorerEvent.slide FactorKey.roi 60,
         ScorerEvent.calcOk]).result = some initialFormData ∧
    (runScorer id
        [ScorerEvent.calcStart, ScorerEvent.slide FactorKey.roi 60,
         ScorerEvent.calcOk]).formData ≠ initialFormData := by
  decide

/-- Claim C10 (amended): every slider change clears the displayed
priority result (sets it to null), and in every run in which no slider
changes while a request is in flight, a displayed `PriorityResult` was
produced exactly from the current factor values — no stale result is
shown.  (When a slider does move during an in-flight request, the
response may still deliver a result computed from the snapshotted form,
as the counterexample shows.) -/
theorem slider_clears_result_no_stale_when_sync :
    ∀ (α : Type) (backend : FormData → α),
      (∀ (s : ScorerState α) (k : FactorKey) (v : ℚ),
        (scorerStep backend s (ScorerEvent.slide k v)).result = none) ∧
      (∀ evs : List ScorerEvent,
        noSlideWhileInFlight false evs = true →
        ∀ r, (runScorer backend evs).result = some r →
          r = backend (runScorer backend evs).formData) := by
  intro α backend
  constructor
  · intro s k v
    rfl
  · intro evs hsafe r hr
    have hsync := scorerSync_foldl backend evs false (initialScorerState α)
      hsafe (by rfl) (by exact ⟨fun fd h => by simp [initialScorerState] at h,
        fun r h => by simp [initialScorerState] at h⟩)
    exact hsync.2 r hr

/-- Claim C10 witness: the amended theorem on the concrete run
"calculate, response arrives" with the identity backend. -/
theorem slider_clears_result_no_stale_when_sync_witness :
    initialFormData
      = id (runScorer id [ScorerEvent.calcStart, ScorerEvent.calcOk]).formData :=
  (slider_clears_result_no_stale_when_sync FormData id).2
    [ScorerEvent.calcStart, ScorerEvent.calcOk] (by decide) initialFormData (by decide)

end Pmo
